import Mathlib

/-!
# Fantasy-hockey recommendation pipeline: shallow embedding

A shallow embedding, over `ℚ`, of the scoring / ranking / swap logic of the
fantasy-hockey dashboard repository (`src/analyzer.py`,
`src/openai_team_analyzer.py`, `src/dashboard.py`, `src/config.py`), together
with theorems settling the specification claims about it.

Conventions used throughout:
* Python floats are modelled by `ℚ`.  All literal coefficients appearing in
  the source (`0.4`, `0.15`, `1.15`, ...) are exact decimal literals, which
  `ℚ` represents exactly.
* Python dicts with `.get(key, default)` access are modelled by structures
  whose fields carry the corresponding defaults.
* `int(x)` on a non-negative float is truncation.  For the threshold
  formulas `int(m * 0.15)`, `int(m * 0.8)`, `int(m * 0.2)`, `int(m * 1.0)`
  the binary-float result agrees with the exact rational floor
  (`3*m/20`, `4*m/5`, `m/5`, `m`) for every `m ≤ 200`, which covers every
  possible games-played count; the embedding therefore uses exact natural
  division.
* File I/O failure modes of the all-star reference table are modelled by an
  explicit `AllStarFile` state (available / missing / malformed).
* Python exceptions in the per-player scoring loop are modelled by an
  `Except`-valued scoring function.
-/

/-- A player's season stat line.  Mirrors the `stats` dict: every category
access in the source is `stats.get(category, 0)`, so each field defaults
to `0`.  `points` is the total-points field read by `_calculate_upside`. -/
structure Stats where
  goals : ℚ := 0
  assists : ℚ := 0
  powerplay_points : ℚ := 0
  shorthanded_points : ℚ := 0
  shots_on_goal : ℚ := 0
  hits : ℚ := 0
  blocks : ℚ := 0
  wins : ℚ := 0
  goals_against : ℚ := 0
  saves : ℚ := 0
  shutouts : ℚ := 0
  overtime_losses : ℚ := 0
  points : ℚ := 0
  games_played : ℕ := 0
deriving DecidableEq, Repr

/-- A player record as passed around the pipeline (roster entries and free
agents).  `fantasy_points_per_game` mirrors
`player.get("fantasy_points_per_game", 0)`: absence of the key is encoded
as the default `0`, exactly the value the source's `.get` produces. -/
structure Player where
  name : String := "Unknown"
  position : String := "Unknown"
  injury_status : String := ""
  stats : Stats := {}
  fantasy_points_per_game : ℚ := 0
deriving DecidableEq, Repr

/-- The per-player analysis dict built by `_analyze_player_metrics`. -/
structure Analysis where
  consistency_rating : ℚ
  upside_potential : ℚ
  injury_risk : ℚ
  position_scarcity : ℚ
  recent_trend : String
  value_score : ℚ
deriving DecidableEq, Repr

/-- A player after the analysis loop of `analyze_player_pickups` has attached
`fantasy_points`, `fantasy_points_per_game` and the `analysis` dict. -/
structure AnalyzedPlayer where
  name : String
  position : String
  injury_status : String
  stats : Stats
  fantasy_points : ℚ
  fantasy_points_per_game : ℚ
  analysis : Analysis
deriving DecidableEq, Repr

/-- `SCORING_CATEGORIES` from `config.py` applied to a stat line: the body of
`_calculate_fantasy_points` (`analyzer.py`), identical to the summation in
`dashboard.calculate_fantasy_points_per_game` and
`OpenAITeamAnalyzer._calculate_fantasy_points_per_game`. -/
def calculate_fantasy_points (stats : Stats) : ℚ :=
  stats.goals * 2 + stats.assists * 1 + stats.powerplay_points * (1/2)
    + stats.shorthanded_points * (1/2) + stats.shots_on_goal * (2/10)
    + stats.hits * (4/10) + stats.blocks * (8/10)
    + stats.wins * 4 + stats.goals_against * (-1) + stats.saves * (2/10)
    + stats.shutouts * 3 + stats.overtime_losses * 1

/-- `dashboard.calculate_fantasy_points_per_game`:
total points divided by `max(games_played, 1)`. -/
def calculate_fantasy_points_per_game (stats : Stats) : ℚ :=
  calculate_fantasy_points stats / (max stats.games_played 1 : ℕ)

/-- Does the character list `s` contain `pat` as a contiguous run starting at
its head?  Helper for Python's substring operator. -/
def chars_begin_with : List Char → List Char → Bool
  | [], _ => true
  | _ :: _, [] => false
  | a :: as, b :: bs => a = b && chars_begin_with as bs

/-- Does the character list `s` contain `pat` as a contiguous run anywhere?
Helper for Python's substring operator. -/
def chars_have_sub (pat : List Char) : List Char → Bool
  | [] => chars_begin_with pat []
  | b :: bs => chars_begin_with pat (b :: bs) || chars_have_sub pat bs

/-- Python's `pat in s` substring test on strings. -/
def str_has_sub (s pat : String) : Bool :=
  chars_have_sub pat.data s.data

/-- Python's `str.lower()`: character-wise lowercasing (all status strings in
this code base are ASCII, where Python's and Lean's per-character lowercase
agree). -/
def str_to_lower (s : String) : String :=
  ⟨s.data.map Char.toLower⟩

/-- `_calculate_consistency` (`analyzer.py`): neutral `5.0` below five games,
otherwise `min(10, games_played / 2)`. -/
def calculate_consistency (stats : Stats) : ℚ :=
  if stats.games_played < 5 then 5
  else min 10 ((stats.games_played : ℚ) / 2)

/-- `_calculate_upside` (`analyzer.py`): indicator points scaled by `2.5`,
capped at `10`. -/
def calculate_upside (stats : Stats) : ℚ :=
  let ind1 : ℕ := if 0 < stats.shots_on_goal ∧
    (15/100 : ℚ) < stats.goals / stats.shots_on_goal then 2 else 0
  let ind2 : ℕ := if 0 < stats.powerplay_points then 1 else 0
  let ind3 : ℕ := if 10 < stats.points then 1 else 0
  min 10 (((ind1 + ind2 + ind3 : ℕ) : ℚ) * (5/2))

/-- `_assess_injury_risk` (`analyzer.py`): substring checks on the lowercased
injury status. -/
def assess_injury_risk (player : Player) : ℚ :=
  let s := str_to_lower player.injury_status
  if str_has_sub s "out" then 10
  else if str_has_sub s "doubtful" then 8
  else if str_has_sub s "questionable" then 6
  else if str_has_sub s "probable" then 3
  else 1

/-- `_assess_position_scarcity` (`analyzer.py`): the fixed lookup table
`{"G": 9.0, "C": 7.0, "LW": 6.0, "RW": 6.0, "D": 5.0}` with default `5.0`. -/
def assess_position_scarcity (position : String) : ℚ :=
  if position = "G" then 9
  else if position = "C" then 7
  else if position = "LW" then 6
  else if position = "RW" then 6
  else if position = "D" then 5
  else 5

/-- `_analyze_player_metrics` (`analyzer.py`): assembles the analysis dict;
`recent_trend` is the placeholder `"stable"` and `value_score` is filled in
later (initially `0.0`). -/
def analyze_player_metrics (player : Player) : Analysis where
  consistency_rating := calculate_consistency player.stats
  upside_potential := calculate_upside player.stats
  injury_risk := assess_injury_risk player
  position_scarcity := assess_position_scarcity player.position
  recent_trend := "stable"
  value_score := 0

/-- Maximum `games_played` over a pool, as computed in
`_get_smart_thresholds`: `max(...)` over the list, `0` for the empty list. -/
def maxGamesPlayed (players : List Player) : ℕ :=
  players.foldr (fun p acc => max p.stats.games_played acc) 0

/-- `_get_smart_thresholds` (`analyzer.py`).  Returns
`(min_games, min_total_points)`.  The empty-pool guard comes first; the
season branches use truncating `int` arithmetic (see the header note on
float/rational agreement). -/
def get_smart_thresholds (players : List Player) : ℕ × ℕ :=
  if players.isEmpty then (3, 10)
  else
    let max_games := maxGamesPlayed players
    if max_games ≤ 10 then (1, 5)
    else if max_games ≤ 30 then
      (max 3 (3 * max_games / 20), max 10 (4 * max_games / 5))
    else
      (max 5 (max_games / 5), max 20 max_games)

/-- The tier ladder mapping all-star appearance counts to a scalar bonus.
The identical ladder appears in `analyzer._calculate_historical_bonus` and in
`dashboard.get_historical_bonus`. -/
def appearances_bonus (appearances : ℕ) : ℚ :=
  if 5 ≤ appearances then 4/10
  else if 3 ≤ appearances then 35/100
  else if 2 ≤ appearances then 3/10
  else if 1 ≤ appearances then 2/10
  else 0

/-- The hardcoded all-star table embedded in `dashboard.get_historical_bonus`,
used as fallback when `data/all_star_appearances.json` does not exist.
Lookup is `dict.get(name, 0)`. -/
def hardcoded_all_stars (name : String) : ℕ :=
  if name = "Sidney Crosby" then 5
  else if name = "Alex Ovechkin" then 8
  else if name = "Patrick Kane" then 6
  else if name = "Evgeni Malkin" then 4
  else if name = "Steven Stamkos" then 6
  else if name = "John Tavares" then 6
  else if name = "Claude Giroux" then 3
  else if name = "Erik Karlsson" then 6
  else if name = "Victor Hedman" then 4
  else if name = "Drew Doughty" then 2
  else if name = "Marc-Andre Fleury" then 4
  else if name = "Carey Price" then 7
  else if name = "Henrik Lundqvist" then 3
  else if name = "Brad Marchand" then 3
  else if name = "David Pastrnak" then 2
  else if name = "Artemi Panarin" then 2
  else if name = "Nikita Kucherov" then 3
  else if name = "Nathan MacKinnon" then 3
  else if name = "Connor McDavid" then 6
  else if name = "Leon Draisaitl" then 3
  else if name = "Auston Matthews" then 4
  else if name = "Mitch Marner" then 1
  else if name = "William Nylander" then 1
  else if name = "John Carlson" then 1
  else if name = "Roman Josi" then 2
  else if name = "Cale Makar" then 2
  else if name = "Adam Fox" then 1
  else if name = "Andrei Vasilevskiy" then 2
  else if name = "Connor Hellebuyck" then 2
  else if name = "Igor Shesterkin" then 1
  else if name = "Anze Kopitar" then 2
  else if name = "Brent Burns" then 2
  else if name = "Shea Weber" then 2
  else if name = "Duncan Keith" then 2
  else if name = "Tuukka Rask" then 1
  else if name = "Sergei Bobrovsky" then 2
  else if name = "Pekka Rinne" then 1
  else if name = "Roberto Luongo" then 1
  else if name = "Ryan O\x27Reilly" then 1
  else if name = "Patrice Bergeron" then 1
  else if name = "Jonathan Toews" then 1
  else if name = "Ryan Getzlaf" then 1
  else if name = "Corey Perry" then 1
  else if name = "Marc Staal" then 1
  else if name = "Cam Talbot" then 1
  else if name = "Kris Letang" then 1
  else if name = "Devon Toews" then 0
  else if name = "Zach Benson" then 0
  else if name = "Leo Carlsson" then 0
  else if name = "Dawson Mercer" then 0
  else if name = "Arturs Silovs" then 0
  else if name = "Travis Konecny" then 2
  else if name = "Mika Zibanejad" then 2
  else if name = "Johnny Gaudreau" then 2
  else if name = "Matthew Tkachuk" then 2
  else if name = "Brady Tkachuk" then 1
  else if name = "Sebastian Aho" then 2
  else if name = "Miro Heiskanen" then 1
  else if name = "Quinn Hughes" then 1
  else if name = "Jake Guentzel" then 1
  else if name = "Mark Scheifele" then 1
  else if name = "Gabriel Landeskog" then 1
  else if name = "Tyler Seguin" then 1
  else if name = "Jamie Benn" then 1
  else if name = "Taylor Hall" then 1
  else if name = "Phil Kessel" then 1
  else if name = "Jeff Skinner" then 1
  else if name = "Tyler Toffoli" then 1
  else if name = "Brock Boeser" then 1
  else if name = "Elias Pettersson" then 1
  else if name = "Bo Horvat" then 1
  else if name = "Mathew Barzal" then 1
  else if name = "Anders Lee" then 1
  else if name = "Josh Bailey" then 1
  else if name = "Ryan Nugent-Hopkins" then 1
  else 0

/-- State of the external reference file `data/all_star_appearances.json`:
present with a parsed table, absent on disk, or present but unreadable
(malformed JSON raising during load). -/
inductive AllStarFile where
  | available (table : String → ℕ)
  | missing
  | malformed

/-- `_load_all_star_data` (`analyzer.py`): returns the parsed table when the
file exists; logs and returns the empty dict when the file is absent or any
exception occurs during load (malformed JSON). -/
def load_all_star_data : AllStarFile → (String → ℕ)
  | .available table => table
  | .missing => fun _ => 0
  | .malformed => fun _ => 0

/-- `_calculate_historical_bonus` (`analyzer.py`): the tier ladder applied to
the count from `_load_all_star_data` (dict lookup with default `0`). -/
def calculate_historical_bonus (fs : AllStarFile) (name : String) : ℚ :=
  appearances_bonus (load_all_star_data fs name)

/-- `get_historical_bonus` (`dashboard.py`), also imported and called by the
swap evaluator in `openai_team_analyzer.py`: when the file exists, the parsed
table is used; when the file does NOT exist, the function falls back to the
hardcoded in-source table; any exception during the lookup (malformed JSON)
is caught and yields `0.0`. -/
def get_historical_bonus (fs : AllStarFile) (name : String) : ℚ :=
  match fs with
  | .available table => appearances_bonus (table name)
  | .missing => appearances_bonus (hardcoded_all_stars name)
  | .malformed => 0

/-- The `weights` dict defined inside `_calculate_value_score`
(`analyzer.py`). -/
structure ValueWeights where
  fantasy_points_per_game : ℚ
  consistency_rating : ℚ
  upside_potential : ℚ
  position_scarcity : ℚ
  injury_risk : ℚ
deriving DecidableEq, Repr

/-- The concrete weight values of `_calculate_value_score`:
`{fp/g: 0.4, consistency: 0.25, upside: 0.25, scarcity: 0.1, injury: 0.1}`. -/
def value_weights : ValueWeights where
  fantasy_points_per_game := 4/10
  consistency_rating := 25/100
  upside_potential := 25/100
  position_scarcity := 1/10
  injury_risk := 1/10

/-- The position-based adjustment chain of `_calculate_value_score`:
`"Goalie"` multiplies by `0.6`, `"Defense"` by `1.15`, the three forward
positions by `1.0`, and any other position string leaves the score
untouched (both of the last two are the identity). -/
def position_multiplier (position : String) : ℚ :=
  if position = "Goalie" then 6/10
  else if position = "Defense" then 115/100
  else 1

/-- `_calculate_value_score` (`analyzer.py`): weighted sum of fp/g and the
analysis metrics, position multiplier, additive historical bonus, small-sample
penalty below five games, and the final clamp to `≥ 0`. -/
def calculate_value_score (fs : AllStarFile) (p : AnalyzedPlayer) : ℚ :=
  let base := p.fantasy_points_per_game * value_weights.fantasy_points_per_game
    + p.analysis.consistency_rating * value_weights.consistency_rating
    + p.analysis.upside_potential * value_weights.upside_potential
    + p.analysis.position_scarcity * value_weights.position_scarcity
    + p.analysis.injury_risk * value_weights.injury_risk
  let adjusted := base * position_multiplier p.position
    + calculate_historical_bonus fs p.name
  let final := if p.stats.games_played < 5 then
      adjusted * max (1/2) (1 - ((5 - p.stats.games_played : ℕ) : ℚ) * (1/10))
    else adjusted
  max 0 final

/-- The `try`-block body of the loop in `analyze_player_pickups`
(`analyzer.py`): compute fantasy points, divide by `max(games_played, 1)`,
attach both together with the analysis metrics. -/
def score_agent (agent : Player) : AnalyzedPlayer :=
  let fantasy_points := calculate_fantasy_points agent.stats
  let games_played : ℕ := max agent.stats.games_played 1
  { name := agent.name
    position := agent.position
    injury_status := agent.injury_status
    stats := agent.stats
    fantasy_points := fantasy_points
    fantasy_points_per_game := fantasy_points / (games_played : ℚ)
    analysis := analyze_player_metrics agent }

/-- The `except`-branch of the loop in `analyze_player_pickups`: the failing
player is still appended, with zero points and the all-zero analysis dict
(`recent_trend` set to `"unknown"`). -/
def error_result (agent : Player) : AnalyzedPlayer where
  name := agent.name
  position := agent.position
  injury_status := agent.injury_status
  stats := agent.stats
  fantasy_points := 0
  fantasy_points_per_game := 0
  analysis := ⟨0, 0, 0, 0, "unknown", 0⟩

/-- The per-agent loop of `analyze_player_pickups` (`analyzer.py`).  Python
exceptions raised while scoring one record are modelled by an `Except`-valued
scoring function: `.ok` is the `try`-block result, `.error` takes the
`except` branch, and in both cases the loop appends a record and continues
with the rest of the pool. -/
def analyze_agents_loop (score : Player → Except String AnalyzedPlayer) :
    List Player → List AnalyzedPlayer
  | [] => []
  | agent :: rest =>
    (match score agent with
      | .ok r => r
      | .error _ => error_result agent) :: analyze_agents_loop score rest

/-- The player fp/g resolution used throughout `openai_team_analyzer.py`:
`player.get("fantasy_points_per_game", 0)`, recomputed from the stat line
whenever that value is `0`. -/
def resolve_fp_per_game (p : Player) : ℚ :=
  if p.fantasy_points_per_game = 0 then calculate_fantasy_points_per_game p.stats
  else p.fantasy_points_per_game

/-- The `position_matches` dict of `_find_swap_targets`
(`openai_team_analyzer.py`): each of the five canonical positions maps to the
singleton list holding itself; `dict.get(position, [])` yields `[]` for any
other position string. -/
def position_matches (position : String) : List String :=
  if position = "Goalie" then ["Goalie"]
  else if position = "Defense" then ["Defense"]
  else if position = "Center" then ["Center"]
  else if position = "Left Wing" then ["Left Wing"]
  else if position = "Right Wing" then ["Right Wing"]
  else []

/-- Stable descending insertion by a rational key: the new element goes in
front of the first strictly-smaller-keyed element, after any tied one. -/
def insert_by_desc (key : α → ℚ) (a : α) : List α → List α
  | [] => [a]
  | b :: l => if key b ≤ key a then a :: b :: l else b :: insert_by_desc key a l

/-- Stable sort, descending by a rational key.  Models Python's
`list.sort(key=..., reverse=True)`: Timsort is stable, and a stable sort by a
fixed key is unique as a function of the input list, so any stable descending
sort yields the identical list. -/
def sort_by_desc (key : α → ℚ) : List α → List α
  | [] => []
  | a :: l => insert_by_desc key a (sort_by_desc key l)

/-- `_find_swap_targets` (`openai_team_analyzer.py`): guard on an empty free
agent pool, filter to same-position agents with strictly higher fp/g than the
(resolved) rostered player's, sort descending by fp/g improvement, keep the
top 3. -/
def find_swap_targets (player : Player) (top_free_agents : List Player) :
    List Player :=
  if top_free_agents.isEmpty then []
  else
    let player_fp_per_game := resolve_fp_per_game player
    let matching_positions := position_matches player.position
    let potential_targets := top_free_agents.filter
      (fun a => decide (a.position ∈ matching_positions ∧
        player_fp_per_game < a.fantasy_points_per_game))
    (sort_by_desc (fun a => a.fantasy_points_per_game - player_fp_per_game)
      potential_targets).take 3

/-- `_calculate_swap_score` (`openai_team_analyzer.py`): fp/g improvement of
the target over the (resolved) current player, plus a sample-size bonus, a
historical-track-record bonus keyed on `dashboard.get_historical_bonus`, and
an injury penalty from substring checks on the lowercased target status. -/
def calculate_swap_score (fs : AllStarFile)
    (current_player target_player : Player) : ℚ :=
  let current_fp_per_game := resolve_fp_per_game current_player
  let target_fp_per_game := target_player.fantasy_points_per_game
  let fp_improvement := target_fp_per_game - current_fp_per_game
  let sample_bonus : ℚ :=
    if 5 ≤ target_player.stats.games_played then 2
    else if 3 ≤ target_player.stats.games_played then 1
    else 0
  let target_historical := get_historical_bonus fs target_player.name
  let historical_tier_bonus : ℚ :=
    if (3/10 : ℚ) < target_historical then 3
    else if (2/10 : ℚ) < target_historical then 2
    else if (1/10 : ℚ) < target_historical then 1
    else 0
  let target_injury := str_to_lower target_player.injury_status
  let injury_penalty : ℚ :=
    if str_has_sub target_injury "out" then -5
    else if str_has_sub target_injury "doubtful" then -2
    else if str_has_sub target_injury "questionable" then -1
    else 0
  fp_improvement + sample_bonus + historical_tier_bonus + injury_penalty

/-- The recommendation ladder of `analyze_team_roster`
(`openai_team_analyzer.py`), applied to the swap score against the best
target: `≥ 15` → Must Swap, `≥ 5` → Consider Swap, otherwise Keep. -/
def classify_swap (swap_score : ℚ) : String :=
  if 15 ≤ swap_score then "Must Swap"
  else if 5 ≤ swap_score then "Consider Swap"
  else "Keep"

/-- The per-player recommendation branch of `analyze_team_roster`
(`openai_team_analyzer.py`): with at least one swap target the swap score
against the best target (`swap_targets[0]`) is classified by the
`classify_swap` ladder; with no targets the player is kept. -/
def analyze_roster_player (fs : AllStarFile) (player : Player)
    (top_free_agents : List Player) : String :=
  match find_swap_targets player top_free_agents with
  | [] => "Keep"
  | best :: _ => classify_swap (calculate_swap_score fs player best)

/-- An available reference file whose parsed table is empty: every player has
zero recorded all-star appearances (hence no historical bonus). -/
def no_bonus_file : AllStarFile := .available (fun _ => 0)

/-- Spec scenario: the rostered Defense player with fp/g `2.0`, ten games
played, healthy. -/
def roster_defender : Player where
  name := "Roster Defender"
  position := "Defense"
  injury_status := "healthy"
  stats := { games_played := 10 }
  fantasy_points_per_game := 2

/-- Spec scenario: the Defense free agent with fp/g `1.0`. -/
def fa_defender_low : Player where
  name := "FA Low"
  position := "Defense"
  injury_status := "healthy"
  stats := { games_played := 10 }
  fantasy_points_per_game := 1

/-- Spec scenario: the Defense free agent with fp/g `3.0`. -/
def fa_defender_mid : Player where
  name := "FA Mid"
  position := "Defense"
  injury_status := "healthy"
  stats := { games_played := 10 }
  fantasy_points_per_game := 3

/-- Spec scenario: the Defense free agent with fp/g `5.0`. -/
def fa_defender_high : Player where
  name := "FA High"
  position := "Defense"
  injury_status := "healthy"
  stats := { games_played := 10 }
  fantasy_points_per_game := 5

/-- The spec scenario's free-agent pool: fp/g values 1.0, 3.0, 5.0. -/
def defense_pool : List Player := [fa_defender_low, fa_defender_mid, fa_defender_high]

/-- A pool consisting of one player with zero games played (so the maximum
observed `games_played` is `0` while the pool is non-empty). -/
def zero_games_pool : List Player := [{ stats := { games_played := 0 } }]

/-- A pool whose maximum observed `games_played` is `24` (mid-season). -/
def midseason_pool : List Player := [{ stats := { games_played := 24 } }]

/-- A pool whose maximum observed `games_played` is exactly `10` (the
inclusive early-season boundary). -/
def boundary_pool : List Player := [{ stats := { games_played := 10 } }]

/-- A player record whose scoring raises an exception (see `failing_score`). -/
def broken_agent : Player := { name := "Broken Agent", position := "Center" }

/-- A player record that scores normally. -/
def healthy_agent : Player :=
  { name := "Healthy Agent", position := "Center",
    stats := { goals := 4, games_played := 2 } }

/-- A per-agent scorer that raises (returns `.error`) exactly on
`broken_agent` and follows the normal `try`-block path otherwise. -/
def failing_score (p : Player) : Except String AnalyzedPlayer :=
  if p.name = "Broken Agent" then .error "malformed record"
  else .ok (score_agent p)

theorem mem_insert_by_desc {key : α → ℚ} {a x : α} {l : List α} :
    x ∈ insert_by_desc key a l ↔ x = a ∨ x ∈ l := by
  induction l with
  | nil => simp [insert_by_desc]
  | cons b t ih =>
    simp only [insert_by_desc]
    split
    · simp
    · simp only [List.mem_cons, ih]
      tauto

theorem pairwise_insert_by_desc {key : α → ℚ} {a : α} {l : List α}
    (h : l.Pairwise (fun x y => key y ≤ key x)) :
    (insert_by_desc key a l).Pairwise (fun x y => key y ≤ key x) := by
  induction l with
  | nil => simp [insert_by_desc]
  | cons b t ih =>
    rw [List.pairwise_cons] at h
    obtain ⟨hb, ht⟩ := h
    simp only [insert_by_desc]
    split
    · rename_i hle
      refine List.pairwise_cons.mpr ⟨?_, List.pairwise_cons.mpr ⟨hb, ht⟩⟩
      intro y hy
      rcases List.mem_cons.mp hy with rfl | hy
      · exact hle
      · exact le_trans (hb y hy) hle
    · rename_i hgt
      refine List.pairwise_cons.mpr ⟨?_, ih ht⟩
      intro y hy
      rcases mem_insert_by_desc.mp hy with rfl | hy
      · exact (lt_of_not_le hgt).le
      · exact hb y hy

theorem pairwise_sort_by_desc (key : α → ℚ) (l : List α) :
    (sort_by_desc key l).Pairwise (fun x y => key y ≤ key x) := by
  induction l with
  | nil => simp [sort_by_desc]
  | cons a t ih => exact pairwise_insert_by_desc ih

theorem mem_sort_by_desc {key : α → ℚ} {x : α} {l : List α} :
    x ∈ sort_by_desc key l ↔ x ∈ l := by
  induction l with
  | nil => simp [sort_by_desc]
  | cons a t ih => simp [sort_by_desc, mem_insert_by_desc, ih]

theorem eq_of_mem_position_matches {q position : String}
    (h : q ∈ position_matches position) : q = position := by
  unfold position_matches at h
  split_ifs at h with h1 h2 h3 h4 h5 <;> simp_all

theorem floor_mul_15_of_100 (m : ℕ) : ⌊(15/100 : ℚ) * m⌋₊ = 3 * m / 20 := by
  rw [show (15/100 : ℚ) * m = ((3 * m : ℕ) : ℚ) / ((20 : ℕ) : ℚ) by push_cast; ring,
    Nat.floor_div_eq_div]

theorem floor_mul_8_of_10 (m : ℕ) : ⌊(8/10 : ℚ) * m⌋₊ = 4 * m / 5 := by
  rw [show (8/10 : ℚ) * m = ((4 * m : ℕ) : ℚ) / ((5 : ℕ) : ℚ) by push_cast; ring,
    Nat.floor_div_eq_div]

theorem analyze_agents_loop_length (score : Player → Except String AnalyzedPlayer)
    (agents : List Player) :
    (analyze_agents_loop score agents).length = agents.length := by
  induction agents with
  | nil => rfl
  | cons b t ih => simp [analyze_agents_loop, ih]

theorem analyze_agents_loop_getElem (score : Player → Except String AnalyzedPlayer)
    (agents : List Player) (i : ℕ) (a : Player) (ha : agents[i]? = some a) :
    (analyze_agents_loop score agents)[i]? =
      some (match score a with | .ok r => r | .error _ => error_result a) := by
  induction agents generalizing i with
  | nil => simp at ha
  | cons b t ih =>
    cases i with
    | zero =>
      rw [List.getElem?_cons_zero, Option.some_inj] at ha
      subst ha
      simp [analyze_agents_loop]
    | succ n =>
      rw [List.getElem?_cons_succ] at ha
      simpa [analyze_agents_loop] using ih n ha

/-- C1: for every rostered player and pool of free agents, the candidate list
built by `_find_swap_targets` contains only free agents whose position equals
the rostered player's and whose fp/g strictly exceeds the rostered player's
(resolved) fp/g, has at most 3 entries, and is sorted descending by the
improvement margin; in the spec's end-to-end Defense scenario
(pool fp/g 1.0 / 3.0 / 5.0 against a 2.0 rostered defender) the result is
exactly the 5.0 target followed by the 3.0 target, so the 5.0 target is the
top candidate and the 1.0 target never appears. -/
theorem find_swap_targets_spec (player : Player) (agents : List Player) :
    (∀ t ∈ find_swap_targets player agents,
      t.position = player.position ∧
      resolve_fp_per_game player < t.fantasy_points_per_game) ∧
    (find_swap_targets player agents).length ≤ 3 ∧
    (find_swap_targets player agents).Pairwise
      (fun a b => b.fantasy_points_per_game - resolve_fp_per_game player ≤
        a.fantasy_points_per_game - resolve_fp_per_game player) ∧
    find_swap_targets roster_defender defense_pool =
      [fa_defender_high, fa_defender_mid] := by
  refine ⟨?_, ?_, ?_, ?_⟩
  · intro t ht
    simp only [find_swap_targets] at ht
    split at ht
    · simp at ht
    · have ht' := List.mem_of_mem_take ht
      rw [mem_sort_by_desc] at ht'
      have hf := List.mem_filter.mp ht'
      have hp := of_decide_eq_true hf.2
      exact ⟨eq_of_mem_position_matches hp.1, hp.2⟩
  · simp only [find_swap_targets]
    split
    · simp
    · exact List.length_take_le _ _
  · simp only [find_swap_targets]
    split
    · simp
    · exact List.Pairwise.sublist (List.take_sublist _ _) (pairwise_sort_by_desc _ _)
  · norm_num [find_swap_targets, defense_pool, roster_defender, fa_defender_low,
      fa_defender_mid, fa_defender_high, resolve_fp_per_game, position_matches,
      sort_by_desc, insert_by_desc, List.filter]

/-- C1 witness: the universally quantified part of `find_swap_targets_spec`
instantiated at the spec scenario's top candidate. -/
theorem find_swap_targets_spec_witness :
    fa_defender_high.position = roster_defender.position ∧
    resolve_fp_per_game roster_defender < fa_defender_high.fantasy_points_per_game :=
  (find_swap_targets_spec roster_defender defense_pool).1 fa_defender_high
    (by norm_num [find_swap_targets, defense_pool, roster_defender, fa_defender_low,
      fa_defender_mid, fa_defender_high, resolve_fp_per_game, position_matches,
      sort_by_desc, insert_by_desc, List.filter])

/-- C2: with at least one swap candidate, `analyze_team_roster` classifies by
the swap score against the best candidate, with the ladder
`score ≥ 15 → "Must Swap"`, `5 ≤ score < 15 → "Consider Swap"`,
`score < 5 → "Keep"`; for the spec's concrete setup (healthy target with
fp/g 5.0 and 10 games played, no historical bonus, rostered player at
fp/g 2.0) the swap score is `3 + 2 = 5` and the classification is
`"Consider Swap"`. -/
theorem swap_score_classification_spec :
    (∀ (fs : AllStarFile) (player : Player) (agents : List Player)
      (best : Player) (rest : List Player),
      find_swap_targets player agents = best :: rest →
      analyze_roster_player fs player agents =
        classify_swap (calculate_swap_score fs player best)) ∧
    (∀ s : ℚ,
      (15 ≤ s → classify_swap s = "Must Swap") ∧
      (5 ≤ s → s < 15 → classify_swap s = "Consider Swap") ∧
      (s < 5 → classify_swap s = "Keep")) ∧
    calculate_swap_score no_bonus_file roster_defender fa_defender_high = 5 ∧
    analyze_roster_player no_bonus_file roster_defender [fa_defender_high] =
      "Consider Swap" := by
  have hscore : calculate_swap_score no_bonus_file roster_defender fa_defender_high = 5 := by
    norm_num [calculate_swap_score, no_bonus_file, roster_defender, fa_defender_high,
      resolve_fp_per_game, get_historical_bonus, appearances_bonus, str_has_sub,
      show str_to_lower "healthy" = "healthy" from by decide,
      show chars_have_sub "out".data "healthy".data = false from by decide,
      show chars_have_sub "doubtful".data "healthy".data = false from by decide,
      show chars_have_sub "questionable".data "healthy".data = false from by decide]
  refine ⟨?_, ?_, hscore, ?_⟩
  · intro fs player agents best rest htargets
    unfold analyze_roster_player
    rw [htargets]
  · intro s
    refine ⟨?_, ?_, ?_⟩
    · intro h
      rw [classify_swap, if_pos h]
    · intro h1 h2
      rw [classify_swap, if_neg (not_le.mpr h2), if_pos h1]
    · intro h
      rw [classify_swap, if_neg (not_le.mpr (lt_trans h (by norm_num))),
        if_neg (not_le.mpr h)]
  · have htargets : find_swap_targets roster_defender [fa_defender_high] =
        [fa_defender_high] := by
      norm_num [find_swap_targets, roster_defender, fa_defender_high,
        resolve_fp_per_game, position_matches, sort_by_desc, insert_by_desc,
        List.filter]
    unfold analyze_roster_player
    rw [htargets]
    show classify_swap (calculate_swap_score no_bonus_file roster_defender fa_defender_high) =
      "Consider Swap"
    rw [hscore]
    norm_num [classify_swap]

/-- C2 witness: the classification ladder of `swap_score_classification_spec`
instantiated at `s = 20` and at the concrete swap score of the spec setup. -/
theorem swap_score_classification_spec_witness :
    classify_swap 20 = "Must Swap" ∧
    classify_swap (calculate_swap_score no_bonus_file roster_defender fa_defender_high) =
      "Consider Swap" :=
  ⟨(swap_score_classification_spec.2.1 20).1 (by norm_num),
    by
      rw [swap_score_classification_spec.2.2.1]
      exact (swap_score_classification_spec.2.1 5).2.1 (by norm_num) (by norm_num)⟩

/-- C3 counterexample: a non-empty pool whose maximum observed `games_played`
is `0` does NOT receive the fallback `(3, 10)`: it falls into the
early-season branch and receives `(1, 5)`. -/
theorem threshold_zero_games_counterexample :
    zero_games_pool ≠ [] ∧
    maxGamesPlayed zero_games_pool = 0 ∧
    get_smart_thresholds zero_games_pool = (1, 5) ∧
    get_smart_thresholds zero_games_pool ≠ (3, 10) := by
  refine ⟨by decide, by decide, by decide, by decide⟩

/-- C3 amended: the fixed fallback `(3, 10)` is returned exactly for the
EMPTY candidate pool; a non-empty pool whose maximum observed `games_played`
is `0` takes the early-season branch and gets `(1, 5)`. -/
theorem threshold_zero_games_amended (players : List Player) :
    (players = [] → get_smart_thresholds players = (3, 10)) ∧
    (players ≠ [] → maxGamesPlayed players = 0 →
      get_smart_thresholds players = (1, 5)) := by
  constructor
  · rintro rfl
    rfl
  · intro hne h0
    have hempty : players.isEmpty = false := by
      simpa [List.isEmpty_iff] using hne
    simp [get_smart_thresholds, hempty, h0]

/-- C3 witness: `threshold_zero_games_amended` instantiated at the empty pool
and at the one-player zero-games pool. -/
theorem threshold_zero_games_amended_witness :
    get_smart_thresholds [] = (3, 10) ∧
    get_smart_thresholds zero_games_pool = (1, 5) :=
  ⟨(threshold_zero_games_amended []).1 rfl,
    (threshold_zero_games_amended zero_games_pool).2 (by decide) (by decide)⟩

/-- C4 counterexample: at `max_games = 24` the code truncates
(`int(24 * 0.15) = 3`, giving `min_games = max 3 3 = 3`) while the claim's
`round` formula gives `max 3 (round 3.6) = 4`, so the claimed pair `(4, 19)`
differs from the computed `(3, 19)`. -/
theorem threshold_midseason_counterexample :
    maxGamesPlayed midseason_pool = 24 ∧
    get_smart_thresholds midseason_pool = (3, 19) ∧
    max 3 (round ((15/100 : ℚ) * 24)) = (4 : ℤ) ∧
    max 10 (round ((8/10 : ℚ) * 24)) = (19 : ℤ) ∧
    get_smart_thresholds midseason_pool ≠ (4, 19) := by
  refine ⟨by decide, by decide, by norm_num [round_eq], by norm_num [round_eq], by decide⟩

/-- C4 amended: for a non-empty pool with `10 < max_games ≤ 30` the
mid-season thresholds are `min_games = max(3, ⌊0.15 × max_games⌋)` and
`min_total_points = max(10, ⌊0.8 × max_games⌋)` with TRUNCATION (floor)
rather than rounding; the boundary is inclusive: `max_games = 10` still uses
the early-season branch `(1, 5)`. -/
theorem threshold_midseason_amended (players : List Player) (hne : players ≠ []) :
    (maxGamesPlayed players = 10 → get_smart_thresholds players = (1, 5)) ∧
    (10 < maxGamesPlayed players → maxGamesPlayed players ≤ 30 →
      get_smart_thresholds players =
        (max 3 ⌊(15/100 : ℚ) * maxGamesPlayed players⌋₊,
         max 10 ⌊(8/10 : ℚ) * maxGamesPlayed players⌋₊)) := by
  have hempty : players.isEmpty = false := by
    simpa [List.isEmpty_iff] using hne
  constructor
  · intro h10
    simp [get_smart_thresholds, hempty, h10]
  · intro hlo hhi
    rw [floor_mul_15_of_100, floor_mul_8_of_10]
    simp only [get_smart_thresholds, hempty, Bool.false_eq_true, if_false]
    rw [if_neg (by omega), if_pos hhi]

/-- C4 witness: `threshold_midseason_amended` instantiated at the inclusive
boundary pool (`max_games = 10`) and at the mid-season pool
(`max_games = 24`). -/
theorem threshold_midseason_amended_witness :
    get_smart_thresholds boundary_pool = (1, 5) ∧
    get_smart_thresholds midseason_pool =
      (max 3 ⌊(15/100 : ℚ) * maxGamesPlayed midseason_pool⌋₊,
       max 10 ⌊(8/10 : ℚ) * maxGamesPlayed midseason_pool⌋₊) :=
  ⟨(threshold_midseason_amended boundary_pool (by decide)).1 (by decide),
    (threshold_midseason_amended midseason_pool (by decide)).2 (by decide) (by decide)⟩

/-- C5 counterexample: with the reference file UNAVAILABLE (missing on disk),
the dashboard/swap-evaluator lookup path `get_historical_bonus` does not
return `0.0` for all names: it falls back to the hardcoded in-source table
and returns `0.4` for `"Sidney Crosby"`. -/
theorem historical_bonus_counterexample :
    get_historical_bonus AllStarFile.missing "Sidney Crosby" = 2/5 ∧
    get_historical_bonus AllStarFile.missing "Sidney Crosby" ≠ 0 := by
  constructor <;>
    norm_num [get_historical_bonus, hardcoded_all_stars, appearances_bonus]

/-- C5 amended: a MALFORMED reference table yields `0.0` on both lookup
paths; an UNAVAILABLE (missing) file yields `0.0` on the scoring path
(`analyzer._calculate_historical_bonus`, whose loader degrades to the empty
table), but the dashboard/swap path (`dashboard.get_historical_bonus`) falls
back to the hardcoded in-source all-star table, returning that table's tier
bonus (zero only for names absent from it). -/
theorem historical_bonus_amended (name : String) :
    get_historical_bonus AllStarFile.malformed name = 0 ∧
    calculate_historical_bonus AllStarFile.malformed name = 0 ∧
    calculate_historical_bonus AllStarFile.missing name = 0 ∧
    get_historical_bonus AllStarFile.missing name =
      appearances_bonus (hardcoded_all_stars name) := by
  refine ⟨rfl, ?_, ?_, rfl⟩ <;>
    simp [calculate_historical_bonus, load_all_star_data, appearances_bonus]

/-- C6 counterexample: on the fixed full-name position enum the scarcity
lookup returns the identical default `5.0` everywhere, so Goalie is NOT
assigned the highest value and wings/centers are NOT lower than Defense;
even on the abbreviation keys the table has `D (5) < C (7)`, contradicting
"Defense next highest". -/
theorem position_scarcity_counterexample :
    assess_position_scarcity "Goalie" = 5 ∧
    assess_position_scarcity "Defense" = 5 ∧
    assess_position_scarcity "Center" = 5 ∧
    ¬ assess_position_scarcity "Center" < assess_position_scarcity "Goalie" ∧
    ¬ assess_position_scarcity "Left Wing" < assess_position_scarcity "Defense" ∧
    assess_position_scarcity "D" < assess_position_scarcity "C" := by
  refine ⟨by decide, by decide, by decide, by decide, by decide, by decide⟩

/-- C6 amended: the scarcity table is keyed by the abbreviations
`G/C/LW/RW/D` with `G` highest (9.0), then `C` (7.0), then `LW`/`RW` (6.0),
and `D` LOWEST (5.0); every position in the canonical full-name enum misses
the table and receives the default `5.0`. -/
theorem position_scarcity_amended :
    assess_position_scarcity "G" = 9 ∧
    assess_position_scarcity "C" = 7 ∧
    assess_position_scarcity "LW" = 6 ∧
    assess_position_scarcity "RW" = 6 ∧
    assess_position_scarcity "D" = 5 ∧
    assess_position_scarcity "Goalie" = 5 ∧
    assess_position_scarcity "Defense" = 5 ∧
    assess_position_scarcity "Center" = 5 ∧
    assess_position_scarcity "Left Wing" = 5 ∧
    assess_position_scarcity "Right Wing" = 5 := by
  refine ⟨by decide, by decide, by decide, by decide, by decide,
    by decide, by decide, by decide, by decide, by decide⟩

/-- C7: holding consistency, upside, scarcity, injury risk, games played and
the historical bonus (same file state and name) fixed, for a given position
the final value score of `_calculate_value_score` is monotonically
non-decreasing in `fantasy_points_per_game`: the `0.4` weight, the positional
multiplier, and the small-sample penalty factor are all positive, the
historical bonus is additive, and the clamp `max 0` preserves order. -/
theorem value_score_monotone (fs : AllStarFile) (name position injury : String)
    (st : Stats) (fp cons ups ir scar vs : ℚ) (trend : String) (f1 f2 : ℚ)
    (h : f1 ≤ f2) :
    calculate_value_score fs
      ⟨name, position, injury, st, fp, f1, ⟨cons, ups, ir, scar, trend, vs⟩⟩ ≤
    calculate_value_score fs
      ⟨name, position, injury, st, fp, f2, ⟨cons, ups, ir, scar, trend, vs⟩⟩ := by
  have hm : (0:ℚ) < position_multiplier position := by
    unfold position_multiplier
    split_ifs <;> norm_num
  simp only [calculate_value_score, value_weights]
  apply max_le_max le_rfl
  set H := calculate_historical_bonus fs name with hH
  have hbase : f1 * (4/10) + cons * (25/100) + ups * (25/100) + scar * (1/10) + ir * (1/10)
      ≤ f2 * (4/10) + cons * (25/100) + ups * (25/100) + scar * (1/10) + ir * (1/10) := by
    have hff : f1 * (4/10) ≤ f2 * (4/10) := by linarith
    linarith
  have hadj := add_le_add_right (mul_le_mul_of_nonneg_right hbase hm.le) H
  split_ifs with hgp
  · exact mul_le_mul_of_nonneg_right hadj (le_trans (by norm_num) (le_max_left _ _))
  · exact hadj

/-- C7 witness: `value_score_monotone` instantiated at a concrete Defense
player whose fp/g rises from 1 to 2. -/
theorem value_score_monotone_witness :
    calculate_value_score no_bonus_file
      ⟨"Sample D", "Defense", "healthy", {}, 0, 1, ⟨5, 5, 1, 5, "stable", 0⟩⟩ ≤
    calculate_value_score no_bonus_file
      ⟨"Sample D", "Defense", "healthy", {}, 0, 2, ⟨5, 5, 1, 5, "stable", 0⟩⟩ :=
  value_score_monotone no_bonus_file "Sample D" "Defense" "healthy" {} 0 5 5 1 5 0
    "stable" 1 2 (by norm_num)

/-- C8: for every stat line with `games_played = 0`, fantasy points per game
equals total fantasy points — the denominator is floored to 1 by
`max(games_played, 1)` in both `dashboard.calculate_fantasy_points_per_game`
and the per-agent loop of `analyze_player_pickups`, so no division by zero
can occur. -/
theorem fp_per_game_zero_games (st : Stats) (p : Player)
    (hs : st.games_played = 0) (hp : p.stats.games_played = 0) :
    calculate_fantasy_points_per_game st = calculate_fantasy_points st ∧
    (score_agent p).fantasy_points_per_game = (score_agent p).fantasy_points := by
  constructor
  · unfold calculate_fantasy_points_per_game
    rw [hs]
    norm_num
  · simp only [score_agent]
    rw [hp]
    norm_num

/-- C8 witness: `fp_per_game_zero_games` at the all-default stat line and
player (both with `games_played = 0`). -/
theorem fp_per_game_zero_games_witness :
    calculate_fantasy_points_per_game {} = calculate_fantasy_points {} ∧
    (score_agent {}).fantasy_points_per_game = (score_agent {}).fantasy_points :=
  fp_per_game_zero_games {} {} rfl rfl

/-- C9: if scoring the pool entry at index `i` raises (`score a = .error e`),
the batch loop of `analyze_player_pickups` still completes: the output has
the same length as the input, the failing player is retained at its index
with the neutral record (zero fantasy points, zero fp/g, all-zero analysis
with trend `"unknown"`), and every player whose scoring succeeds receives
exactly its normal result. -/
theorem analyze_loop_isolation (score : Player → Except String AnalyzedPlayer)
    (agents : List Player) (i : ℕ) (a : Player) (e : String)
    (ha : agents[i]? = some a) (hfail : score a = .error e) :
    (analyze_agents_loop score agents).length = agents.length ∧
    (analyze_agents_loop score agents)[i]? = some (error_result a) ∧
    (error_result a).fantasy_points = 0 ∧
    (error_result a).fantasy_points_per_game = 0 ∧
    (error_result a).analysis = ⟨0, 0, 0, 0, "unknown", 0⟩ ∧
    (∀ (j : ℕ) (b : Player) (r : AnalyzedPlayer),
      agents[j]? = some b → score b = .ok r →
      (analyze_agents_loop score agents)[j]? = some r) := by
  refine ⟨analyze_agents_loop_length score agents, ?_, rfl, rfl, rfl, ?_⟩
  · rw [analyze_agents_loop_getElem score agents i a ha, hfail]
  · intro j b r hb hok
    rw [analyze_agents_loop_getElem score agents j b hb, hok]

/-- C9 witness: `analyze_loop_isolation` on a two-player pool in which the
second player's scoring raises. -/
theorem analyze_loop_isolation_witness :
    (analyze_agents_loop failing_score [healthy_agent, broken_agent]).length = 2 ∧
    (analyze_agents_loop failing_score [healthy_agent, broken_agent])[1]? =
      some (error_result broken_agent) :=
  have h := analyze_loop_isolation failing_score [healthy_agent, broken_agent] 1
    broken_agent "malformed record" (by rfl) (by rfl)
  ⟨h.1, h.2.1⟩

/-- C10: every position of the canonical full-name enum misses the
abbreviation-keyed scarcity table, so the pipeline's analysis assigns it the
default scarcity `5.0`, and the scarcity term of the value score is the
identical constant `5.0 × 0.1 = 0.5` for every such player. -/
theorem enum_position_scarcity_default (p : Player)
    (hp : p.position ∈
      (["Center", "Left Wing", "Right Wing", "Defense", "Goalie"] : List String)) :
    (analyze_player_metrics p).position_scarcity = 5 ∧
    (analyze_player_metrics p).position_scarcity *
      value_weights.position_scarcity = 1/2 := by
  have h5 : (analyze_player_metrics p).position_scarcity = 5 := by
    simp only [analyze_player_metrics]
    simp only [List.mem_cons, List.mem_singleton, List.not_mem_nil, or_false] at hp
    rcases hp with h | h | h | h | h <;>
      simp [assess_position_scarcity, h]
  refine ⟨h5, ?_⟩
  rw [h5]
  norm_num [value_weights]

/-- C10 witness: `enum_position_scarcity_default` at the concrete Defense
player. -/
theorem enum_position_scarcity_default_witness :
    (analyze_player_metrics roster_defender).position_scarcity = 5 ∧
    (analyze_player_metrics roster_defender).position_scarcity *
      value_weights.position_scarcity = 1/2 :=
  enum_position_scarcity_default roster_defender (by decide)
